import Mathlib

/-!
Shallow embedding of the `learner_progress` repository: a Streamlit forum
app (`src/app.py`, backed by two database tables `topics` and `posts`) and a
work-sample submission portal (`src/main.py`, backed by a CSV file plus an
upload directory).

Timestamp parsing (`datetime.fromisoformat`) and JSON decoding
(`json.loads`) are library calls that can fail; they are modelled as
explicit function parameters returning `Option`, where `none` stands for the
raised exception. Database fetches are modelled by a `Fetch` input that is
either an error (no `.data` attribute / driver exception) or a list of rows
in the order the query returned them.
-/

namespace Forum

/-- A raw row of the `topics` table as returned by the store
(`created_at` still a string). -/
structure TopicRow where
  id : String
  title : String
  author : String
  created_at : String
deriving Repr, DecidableEq

/-- A raw row of the `posts` table as returned by the store.
`topic_id` is `post.get('topic_id')`: `none` models a missing key. -/
structure PostRow where
  id : String
  topic_id : Option String
  author : String
  content : String
  created_at : String
deriving Repr, DecidableEq

/-- A post after `load_forum_data` converted its `created_at` string to a
datetime (modelled as `Nat`, app.py line 61). -/
structure Post where
  id : String
  topic_id : Option String
  author : String
  content : String
  created_at : Nat
deriving Repr, DecidableEq

/-- A topic record of the returned mapping: the topic row with
`created_at` converted, the attached `posts` list (line 70) and the
`timestamp` alias (line 72). -/
structure TopicRec where
  id : String
  title : String
  author : String
  created_at : Nat
  posts : List Post
  timestamp : Nat
deriving Repr, DecidableEq

/-- Python truthiness of `post.get('topic_id')` (line 57 `if topic_id:`):
false for a missing key (`None`) and for the empty string. -/
def truthy : Option String → Bool
  | none => false
  | some s => s ≠ ""

/-- The dictionary key a post is grouped under, when it is grouped at all. -/
def postKey (p : PostRow) : Option String :=
  if truthy p.topic_id then p.topic_id else none

/-- The converted post produced inside the grouping loop (line 61). -/
def mkPost (p : PostRow) (ts : Nat) : Post :=
  ⟨p.id, p.topic_id, p.author, p.content, ts⟩

/-- `posts_by_topic[topic_id].append(post)`, creating the key first when
absent (lines 58-62): a Python dict keyed by `topic_id`, insertion order. -/
def appendToGroup : List (String × List Post) → String → Post → List (String × List Post)
  | [], k, p => [(k, [p])]
  | (k', ps) :: rest, k, p =>
    if k' = k then (k', ps ++ [p]) :: rest else (k', ps) :: appendToGroup rest k p

/-- `posts_by_topic.get(topic_id, [])` (line 70): association-list
lookup with the empty list as default. -/
def lookupGroup : List (String × List Post) → String → List Post
  | [], _ => []
  | e :: rest, k => if e.1 = k then e.2 else lookupGroup rest k

/-- The posts loop (lines 55-62). `parse` models `datetime.fromisoformat`;
a `none` result is the raised exception, which aborts the whole loop
(the caller's `except` then returns the still-empty `topics_dict`). Posts
with a falsy `topic_id` are skipped before their timestamp is parsed. -/
def groupPosts (parse : String → Option Nat) :
    List PostRow → List (String × List Post) → Option (List (String × List Post))
  | [], acc => some acc
  | p :: rest, acc =>
    if truthy p.topic_id then
      match parse p.created_at with
      | none => none
      | some ts => groupPosts parse rest (appendToGroup acc (p.topic_id.getD "") (mkPost p ts))
    else groupPosts parse rest acc

/-- `topics_dict[topic_id] = topic`: Python dict assignment keeps the
position of an existing key and appends a new key at the end. -/
def dictInsert (d : List (String × TopicRec)) (k : String) (v : TopicRec) :
    List (String × TopicRec) :=
  match d with
  | [] => [(k, v)]
  | (k', v') :: rest => if k' = k then (k, v) :: rest else (k', v') :: dictInsert rest k v

/-- The topic record built at lines 66-73 for topic row `t`, given the
parsed timestamp `ts` and the post groups. -/
def mkRec (g : List (String × List Post)) (t : TopicRow) (ts : Nat) : TopicRec :=
  ⟨t.id, t.title, t.author, ts, lookupGroup g t.id, ts⟩

/-- The topics loop (lines 65-73). A failing `fromisoformat` on a topic
raises; the `except` branch reports the error and the function returns the
`topics_dict` built so far — hence the accumulated dict is returned with
the error flag, not discarded. -/
def buildTopics (parse : String → Option Nat) (g : List (String × List Post)) :
    List TopicRow → List (String × TopicRec) → List (String × TopicRec) × Bool
  | [], acc => (acc, false)
  | t :: rest, acc =>
    match parse t.created_at with
    | none => (acc, true)
    | some ts => buildTopics parse g rest (dictInsert acc t.id (mkRec g t ts))

/-- A fetch result: `err` models a response without a `.data` attribute or
a driver exception raised by `execute()`; `ok` carries the rows in the
order the query returned them. -/
inductive Fetch (α : Type) where
  | err
  | ok (rows : List α)
deriving Repr, DecidableEq

/-- What `load_forum_data` produces: the mapping (a Python dict, modelled
as an association list in insertion order) and whether `st.error` was
called. -/
structure LoadResult where
  dict : List (String × TopicRec)
  errored : Bool
deriving Repr, DecidableEq

/-- `load_forum_data` (app.py lines 32-80). -/
def load_forum_data (parse : String → Option Nat)
    (ft : Fetch TopicRow) (fp : Fetch PostRow) : LoadResult :=
  match ft with
  | .err => ⟨[], true⟩
  | .ok topics =>
    match fp with
    | .err => ⟨[], true⟩
    | .ok posts =>
      match groupPosts parse posts [] with
      | none => ⟨[], true⟩
      | some g =>
        let r := buildTopics parse g topics []
        ⟨r.1, r.2⟩

/-- Parsed timestamp of a topic row, defaulting to 0 (only used under a
hypothesis that parsing succeeds). -/
def pvT (parse : String → Option Nat) (t : TopicRow) : Nat :=
  (parse t.created_at).getD 0

/-- Parsed timestamp of a post row, defaulting to 0. -/
def pvP (parse : String → Option Nat) (p : PostRow) : Nat :=
  (parse p.created_at).getD 0

/-- The converted post a row becomes when its timestamp parses. -/
def mkPostD (parse : String → Option Nat) (p : PostRow) : Post :=
  mkPost p (pvP parse p)

/-- The topic record a row becomes when its timestamp parses. -/
def mkRecD (parse : String → Option Nat) (g : List (String × List Post))
    (t : TopicRow) : TopicRec :=
  mkRec g t (pvT parse t)

/-- Reply count shown in the topic list (app.py line 185):
`max(0, len(topic.get('posts', [])) - 1)`, computed over the integers. -/
def reply_count (rec : TopicRec) : Int :=
  max 0 ((rec.posts.length : Int) - 1)

/-- The original post shown in the thread view (app.py line 209):
`topic.get('posts', [])[0] if topic.get('posts') else None` — the index is
guarded by the truthiness of the list, so an empty list yields `None`
without indexing. -/
def op_post (rec : TopicRec) : Option Post :=
  if rec.posts = [] then none else rec.posts.head?

/-- Whether the original-post panel is rendered (app.py line 210). -/
def op_panel_shown (rec : TopicRec) : Bool :=
  (op_post rec).isSome

/-- The replies list (app.py line 224): `topic.get('posts', [])[1:]`. -/
def replies (rec : TopicRec) : List Post :=
  rec.posts.drop 1

/-- Outcome of the create-topic submit handler (app.py lines 274-303):
which saves were attempted and which messages were shown. The code
contains no delete of the topic row, so `topicDeleted` is constantly
false. -/
structure CreateTopicOutcome where
  topicSaveAttempted : Bool
  postSaveAttempted : Bool
  successShown : Bool
  orphanErrorShown : Bool
  topicFailErrorShown : Bool
  emptyFieldWarningShown : Bool
  topicDeleted : Bool
deriving Repr, DecidableEq

/-- Python `str.strip()`: whitespace removed from both ends. -/
def py_strip (s : String) : String :=
  String.mk (((s.data.dropWhile Char.isWhitespace).reverse.dropWhile Char.isWhitespace).reverse)

/-- The create-topic submit handler (app.py lines 274-303). `topicSave`
and `postSave` are the boolean results `save_topic` / `save_post` would
return; `save_post` is only consulted when it is actually called
(line 288-289: `post_saved = False` unless `topic_saved`). -/
def create_topic_submit (title content : String) (topicSave postSave : Bool) :
    CreateTopicOutcome :=
  if py_strip title = "" then
    ⟨false, false, false, false, false, true, false⟩
  else if py_strip content = "" then
    ⟨false, false, false, false, false, true, false⟩
  else if topicSave then
    if postSave then ⟨true, true, true, false, false, false, false⟩
    else ⟨true, true, false, true, false, false, false⟩
  else ⟨true, false, false, false, true, false, false⟩

end Forum

namespace Portal

/-- One chat message (main.py lines 89-93). -/
structure ChatMsg where
  author : String
  message : String
  timestamp : String
deriving Repr, DecidableEq

/-- One row of the in-memory submissions DataFrame (main.py lines 69-77). -/
structure SubmissionRow where
  timestamp : String
  learner_name : String
  module_task : String
  filename : String
  file_path : String
  status : String
  chat : List ChatMsg
deriving Repr, DecidableEq

/-- One row as persisted to `submissions.csv`: the same record with the
`Chat` column dropped (main.py line 62). -/
structure CsvRow where
  timestamp : String
  learner_name : String
  module_task : String
  filename : String
  file_path : String
  status : String
deriving Repr, DecidableEq

/-- Dropping the `Chat` column from one row. -/
def dropChat (r : SubmissionRow) : CsvRow :=
  ⟨r.timestamp, r.learner_name, r.module_task, r.filename, r.file_path, r.status⟩

/-- The full column set of the in-memory DataFrame (main.py lines 40-42). -/
def full_columns : List String :=
  ["Timestamp", "Learner Name", "Module/Task", "Filename", "File Path", "Status", "Chat"]

/-- `df.drop(columns=[...])` on the header. -/
def drop_columns (cols dropped : List String) : List String :=
  cols.filter (fun c => ¬ c ∈ dropped)

/-- The CSV file written by `to_csv`: header and data rows. -/
structure CsvFile where
  header : List String
  rows : List CsvRow
deriving Repr, DecidableEq

/-- `save_submission_record` (main.py lines 58-65): drops the `Chat`
column from a copy and overwrites the CSV with the rest. -/
def save_submission_record (df : List SubmissionRow) : CsvFile :=
  ⟨drop_columns full_columns ["Chat"], df.map dropChat⟩

/-- `add_submission_to_state` (main.py lines 67-83): appends one record
with an empty chat list (`ignore_index=True` keeps positional indexing)
and immediately persists. Returns the new table and the written CSV. -/
def add_submission_to_state (df : List SubmissionRow)
    (timestamp learner_name module_task filename file_path status : String) :
    List SubmissionRow × CsvFile :=
  let df' := df ++ [⟨timestamp, learner_name, module_task, filename, file_path, status, []⟩]
  (df', save_submission_record df')

/-- `add_chat_message` (main.py lines 86-98): appends one message to the
chat list of the row at `idx` when `idx` is not `None` and is a valid
index; otherwise reports an error and leaves the table alone. Returns the
new table and whether the error branch ran. Nothing is persisted. -/
def add_chat_message (df : List SubmissionRow) (idx : Option Nat)
    (author message now : String) : List SubmissionRow × Bool :=
  match idx with
  | none => (df, true)
  | some i =>
    if h : i < df.length then
      let r := df.get ⟨i, h⟩
      (df.set i { r with chat := r.chat ++ [⟨author, message, now⟩] }, false)
    else (df, true)

/-- `"".join(c if c.isalnum() else "_" for c in s)` (main.py lines
140-141). -/
def sanitize (s : String) : String :=
  String.mk (s.data.map (fun c => if c.isAlphanum then c else '_'))

/-- The module component of the stored name: the label is sliced to its
first 20 characters and then sanitized (main.py line 141,
`final_module[:20]`). -/
def module_component (m : String) : String :=
  sanitize (String.mk (m.data.take 20))

/-- Index of the last occurrence of `c`, if any. -/
def lastIdxOf (c : Char) : List Char → Option Nat
  | [] => none
  | a :: rest =>
    match lastIdxOf c rest with
    | some i => some (i + 1)
    | none => if a = c then some 0 else none

/-- `os.path.splitext(name)[1]` for a bare file name (no directory
separators): the suffix from the last dot, unless every character before
that dot is itself a dot (so `".bashrc"` has no extension). -/
def splitext_ext (name : String) : String :=
  match lastIdxOf '.' name.data with
  | none => ""
  | some i =>
    if (name.data.take i).all (fun c => c = '.') then "" else String.mk (name.data.drop i)

/-- The stored file name (main.py lines 139-144):
`f"\x7btimestamp_str\x7d_\x7bsafe_learner_name\x7d_\x7bsafe_module_name\x7d\x7bfile_extension\x7d"`. -/
def unique_filename (timestamp_str learner_name final_module original_filename : String) :
    String :=
  timestamp_str ++ "_" ++ sanitize learner_name ++ "_" ++ module_component final_module
    ++ splitext_ext original_filename

/-- A value found in a `Chat` cell of the loaded CSV DataFrame: a string,
an actual list, or anything else (e.g. NaN). -/
inductive Cell where
  | str (s : String)
  | lst (l : List ChatMsg)
  | other
deriving Repr, DecidableEq

/-- The DataFrame `pd.read_csv` produced: its columns, its row count, and
the contents of the `Chat` column when that column exists. -/
structure RawTable where
  cols : List String
  nrows : Nat
  chatCells : List Cell
deriving Repr, DecidableEq

/-- How `pd.read_csv(SUBMISSIONS_FILE)` went: the file was missing
(`FileNotFoundError`), empty (`pd.errors.EmptyDataError`), or loaded. -/
inductive CsvLoad where
  | missing
  | empty
  | ok (t : RawTable)
deriving Repr, DecidableEq

/-- The state `initialize_app` leaves behind: the row count of the
in-memory table, its `Chat` column, and which message branch ran
(`st.warning` at line 44, `st.error` at line 49). -/
structure InitState where
  nrows : Nat
  chat : List (List ChatMsg)
  warned : Bool
  errored : Bool
deriving Repr, DecidableEq

/-- The per-cell lambda at main.py lines 35-37 combined with the final
normalisation at line 55 (`x if isinstance(x, list) else []`, the
identity on the lists this lambda yields). `jparse` models `json.loads`;
`none` is a raised `JSONDecodeError`. A string cell not starting with
`[` is not a list, so it becomes the empty list. -/
def convert_chat_cell (jparse : String → Option (List ChatMsg)) :
    Cell → Option (List ChatMsg)
  | .str s => if s.startsWith "[" then jparse s else some []
  | .lst l => some l
  | .other => some []

/-- The CSV-loading half of `initialize_app` (main.py lines 22-55).
`tsOk` models whether `pd.to_datetime` on the `Timestamp` column succeeds
when that column exists; its failure is caught by the generic
`except Exception` (line 48), which reports an error and starts fresh.
A `FileNotFoundError` starts fresh silently; an `EmptyDataError` or a
`JSONDecodeError` while decoding chat cells takes the warning branch
(line 43-47) and starts fresh. A fresh table is the empty DataFrame with
the full column set, zero rows, `Chat` column empty. -/
def initialize_app (jparse : String → Option (List ChatMsg)) (tsOk : Bool) :
    CsvLoad → InitState
  | .missing => ⟨0, [], false, false⟩
  | .empty => ⟨0, [], true, false⟩
  | .ok t =>
    if ¬ tsOk ∧ "Timestamp" ∈ t.cols then ⟨0, [], false, true⟩
    else if "Chat" ∈ t.cols then
      match t.chatCells.mapM (convert_chat_cell jparse) with
      | none => ⟨0, [], true, false⟩
      | some chats => ⟨t.nrows, chats, false, false⟩
    else ⟨t.nrows, List.replicate t.nrows [], false, false⟩

end Portal

/-! ## Claims about the forum views -/

/-- C3: topic creation saves the topic first and attempts the first-post
save only when the topic save succeeded; a failed topic save shows the
abort error and no success; a failed post save after a successful topic
save shows the orphaned-topic error and no success; no rollback of the
topic insert exists in the handler. -/
theorem c3_topic_creation_two_step (title content : String) (topicSave postSave : Bool)
    (h1 : Forum.py_strip title ≠ "") (h2 : Forum.py_strip content ≠ "") :
    (Forum.create_topic_submit title content topicSave postSave).postSaveAttempted = topicSave
    ∧ (topicSave = false →
        (Forum.create_topic_submit title content topicSave postSave).postSaveAttempted = false
        ∧ (Forum.create_topic_submit title content topicSave postSave).topicFailErrorShown = true
        ∧ (Forum.create_topic_submit title content topicSave postSave).successShown = false)
    ∧ (topicSave = true → postSave = false →
        (Forum.create_topic_submit title content topicSave postSave).orphanErrorShown = true
        ∧ (Forum.create_topic_submit title content topicSave postSave).successShown = false)
    ∧ (Forum.create_topic_submit title content topicSave postSave).topicDeleted = false := by
  cases topicSave <;> cases postSave <;>
    simp [Forum.create_topic_submit, h1, h2]

/-- Witness for C3 at a concrete valid submission whose post save fails. -/
theorem c3_topic_creation_two_step_witness :
    (Forum.create_topic_submit "Title" "Content" true false).postSaveAttempted = true
    ∧ (true = false →
        (Forum.create_topic_submit "Title" "Content" true false).postSaveAttempted = false
        ∧ (Forum.create_topic_submit "Title" "Content" true false).topicFailErrorShown = true
        ∧ (Forum.create_topic_submit "Title" "Content" true false).successShown = false)
    ∧ (true = true → false = false →
        (Forum.create_topic_submit "Title" "Content" true false).orphanErrorShown = true
        ∧ (Forum.create_topic_submit "Title" "Content" true false).successShown = false)
    ∧ (Forum.create_topic_submit "Title" "Content" true false).topicDeleted = false :=
  c3_topic_creation_two_step "Title" "Content" true false (by decide) (by decide)

/-- C8: a topic record with an empty posts list renders a reply count of
zero (the count is the post count minus one, clamped at zero), shows no
original-post panel, and yields an empty replies list; the guarded
original-post access returns `none` without indexing. -/
theorem c8_empty_topic_safe (rec : Forum.TopicRec) (h : rec.posts = []) :
    Forum.reply_count rec = 0
    ∧ Forum.op_post rec = none
    ∧ Forum.op_panel_shown rec = false
    ∧ Forum.replies rec = []
    ∧ Forum.reply_count rec = max 0 ((rec.posts.length : Int) - 1) := by
  refine ⟨?_, ?_, ?_, ?_, rfl⟩ <;>
    simp [Forum.reply_count, Forum.op_post, Forum.op_panel_shown, Forum.replies, h]

/-- Witness for C8 at a concrete topic with no posts. -/
theorem c8_empty_topic_safe_witness :
    Forum.reply_count ⟨"t1", "T", "u", 5, [], 5⟩ = 0
    ∧ Forum.op_post ⟨"t1", "T", "u", 5, [], 5⟩ = none
    ∧ Forum.op_panel_shown ⟨"t1", "T", "u", 5, [], 5⟩ = false
    ∧ Forum.replies ⟨"t1", "T", "u", 5, [], 5⟩ = []
    ∧ Forum.reply_count ⟨"t1", "T", "u", 5, [], 5⟩
        = max 0 ((Forum.TopicRec.posts ⟨"t1", "T", "u", 5, [], 5⟩).length - 1 : Int) :=
  c8_empty_topic_safe ⟨"t1", "T", "u", 5, [], 5⟩ rfl

/-! ## Claims about the submission portal -/

namespace Portal

/-- Mutating only a row's chat list does not change its persisted image. -/
theorem map_dropChat_set_chat :
    ∀ (l : List SubmissionRow) (i : Nat) (msg : ChatMsg) (h : i < l.length),
      (l.set i { l.get ⟨i, h⟩ with chat := (l.get ⟨i, h⟩).chat ++ [msg] }).map dropChat
        = l.map dropChat
  | _ :: _, 0, _, _ => by simp [dropChat]
  | a :: rest, i + 1, msg, h => by
    have ih := map_dropChat_set_chat rest i msg (Nat.lt_of_succ_lt_succ h)
    simpa [List.set] using ih

end Portal

/-- C4: the CSV written right after `add_submission_to_state` has exactly
the non-chat columns and its rows are the full in-memory table with the
`Chat` column dropped; a message appended by `add_chat_message` never
changes what `save_submission_record` writes. -/
theorem c4_persisted_csv_excludes_chat (df : List Portal.SubmissionRow)
    (ts name mt fn fp st : String) (idx : Option Nat) (a m now : String) :
    (Portal.add_submission_to_state df ts name mt fn fp st).2.header
        = ["Timestamp", "Learner Name", "Module/Task", "Filename", "File Path", "Status"]
    ∧ ¬ "Chat" ∈ (Portal.add_submission_to_state df ts name mt fn fp st).2.header
    ∧ (Portal.add_submission_to_state df ts name mt fn fp st).2.rows
        = (Portal.add_submission_to_state df ts name mt fn fp st).1.map Portal.dropChat
    ∧ Portal.save_submission_record (Portal.add_chat_message df idx a m now).1
        = Portal.save_submission_record df := by
  refine ⟨?_, ?_, rfl, ?_⟩
  · show Portal.drop_columns Portal.full_columns ["Chat"]
      = ["Timestamp", "Learner Name", "Module/Task", "Filename", "File Path", "Status"]
    decide
  · show ¬ "Chat" ∈ Portal.drop_columns Portal.full_columns ["Chat"]
    decide
  cases idx with
  | none => rfl
  | some i =>
    by_cases h : i < df.length
    · simp only [Portal.add_chat_message, dif_pos h, Portal.save_submission_record]
      exact congrArg _ (Portal.map_dropChat_set_chat df i ⟨a, m, now⟩ h)
    · simp only [Portal.add_chat_message, dif_neg h]

/-- C5: the stored filename is the timestamp, an underscore, the learner
name with every non-alphanumeric character replaced by `_`, an
underscore, the similarly sanitized (20-character-sliced) module label,
followed by the original filename's extension, which is thus a suffix of
the stored name and of the original name. -/
theorem c5_stored_filename_shape (ts name mod orig : String) :
    Portal.unique_filename ts name mod orig
      = ts ++ "_" ++ String.mk (name.data.map (fun c => if c.isAlphanum then c else '_'))
        ++ "_" ++ String.mk ((mod.data.take 20).map (fun c => if c.isAlphanum then c else '_'))
        ++ Portal.splitext_ext orig
    ∧ List.IsSuffix (Portal.splitext_ext orig).data (Portal.unique_filename ts name mod orig).data
    ∧ List.IsSuffix (Portal.splitext_ext orig).data orig.data := by
  refine ⟨rfl, ?_, ?_⟩
  · rw [show Portal.unique_filename ts name mod orig
        = (ts ++ "_" ++ Portal.sanitize name ++ "_" ++ Portal.module_component mod)
            ++ Portal.splitext_ext orig from rfl,
      String.data_append]
    exact List.suffix_append _ _
  · unfold Portal.splitext_ext
    cases hL : Portal.lastIdxOf '.' orig.data with
    | none => exact List.nil_suffix
    | some i =>
      dsimp only
      split
      · exact List.nil_suffix
      · exact List.drop_suffix i orig.data

/-- C9: the module component of the stored filename depends only on the
label's first 20 characters (slice happens before sanitization), so two
labels sharing a 20-character prefix collide; the learner-name component
is never truncated (it keeps the name's full length). -/
theorem c9_module_label_truncated_to_20 (m1 m2 name : String)
    (h : m1.data.take 20 = m2.data.take 20) :
    Portal.module_component m1 = Portal.module_component m2
    ∧ (Portal.sanitize name).data.length = name.data.length
    ∧ (∀ m : String, Portal.module_component m
        = Portal.sanitize (String.mk (m.data.take 20))) := by
  refine ⟨?_, ?_, fun _ => rfl⟩
  · unfold Portal.module_component
    rw [h]
  · simp [Portal.sanitize]

/-- Witness for C9: two 22-character labels agreeing on their first 20
characters produce the same module component. -/
theorem c9_module_label_truncated_to_20_witness :
    Portal.module_component "aaaaaaaaaaaaaaaaaaaabb"
        = Portal.module_component "aaaaaaaaaaaaaaaaaaaacc"
    ∧ (Portal.sanitize "A/B*C").data.length = ("A/B*C" : String).data.length
    ∧ (∀ m : String, Portal.module_component m
        = Portal.sanitize (String.mk (m.data.take 20))) :=
  c9_module_label_truncated_to_20 "aaaaaaaaaaaaaaaaaaaabb" "aaaaaaaaaaaaaaaaaaaacc"
    "A/B*C" (by decide)

/-- C7: a valid row position makes `add_chat_message` append exactly one
message to that row's chat list, leaving every other position untouched
and reporting no error; a `None` or out-of-range position reports the
error and leaves the table unchanged. -/
theorem c7_add_chat_message_isolated (df : List Portal.SubmissionRow) (a m now : String) :
    (∀ (i : Nat) (h : i < df.length),
        Portal.add_chat_message df (some i) a m now
          = (df.set i { df.get ⟨i, h⟩ with
              chat := (df.get ⟨i, h⟩).chat ++ [⟨a, m, now⟩] }, false)
        ∧ (Portal.add_chat_message df (some i) a m now).1[i]?
            = some { df.get ⟨i, h⟩ with
                chat := (df.get ⟨i, h⟩).chat ++ [⟨a, m, now⟩] }
        ∧ (∀ j : Nat, j ≠ i →
            (Portal.add_chat_message df (some i) a m now).1[j]? = df[j]?))
    ∧ Portal.add_chat_message df none a m now = (df, true)
    ∧ (∀ i : Nat, df.length ≤ i →
        Portal.add_chat_message df (some i) a m now = (df, true)) := by
  refine ⟨fun i h => ?_, rfl, fun i h => ?_⟩
  · refine ⟨by simp [Portal.add_chat_message, h], ?_, fun j hj => ?_⟩
    · simp only [Portal.add_chat_message, dif_pos h]
      exact List.getElem?_set_self h
    · simp only [Portal.add_chat_message, dif_pos h]
      exact List.getElem?_set_ne (fun hij => hj hij.symm)
  · simp [Portal.add_chat_message, Nat.not_lt_of_le h]

/-- Witness for C7: appending to row 1 of a two-row table. -/
theorem c7_add_chat_message_isolated_witness :
    Portal.add_chat_message
        ([⟨"t0", "n0", "m0", "f0", "p0", "s0", []⟩,
          ⟨"t1", "n1", "m1", "f1", "p1", "s1", []⟩] : List Portal.SubmissionRow)
        (some 1) "Mentor" "Nice work" "2025-01-01 00:00:00"
      = ([⟨"t0", "n0", "m0", "f0", "p0", "s0", []⟩,
          ⟨"t1", "n1", "m1", "f1", "p1", "s1",
            [⟨"Mentor", "Nice work", "2025-01-01 00:00:00"⟩]⟩], false) :=
  ((c7_add_chat_message_isolated
      [⟨"t0", "n0", "m0", "f0", "p0", "s0", []⟩, ⟨"t1", "n1", "m1", "f1", "p1", "s1", []⟩]
      "Mentor" "Nice work" "2025-01-01 00:00:00").1 1 (by decide)).1

/-- C6: loading a CSV whose header has no `Chat` column never raises out
of `initialize_app` (every branch is handled) and leaves a table whose
`Chat` column is a list of empty lists, one per row of the resulting
table; when the `Timestamp` conversion succeeds the row count is the
loaded CSV's row count. -/
theorem c6_missing_chat_column_recovered (jparse : String → Option (List Portal.ChatMsg))
    (tsOk : Bool) (t : Portal.RawTable) (h : ¬ "Chat" ∈ t.cols) :
    (Portal.initialize_app jparse tsOk (Portal.CsvLoad.ok t)).chat
        = List.replicate (Portal.initialize_app jparse tsOk (Portal.CsvLoad.ok t)).nrows []
    ∧ (Portal.initialize_app jparse tsOk (Portal.CsvLoad.ok t)).chat.length
        = (Portal.initialize_app jparse tsOk (Portal.CsvLoad.ok t)).nrows
    ∧ (Portal.initialize_app jparse tsOk (Portal.CsvLoad.ok t)).warned = false
    ∧ (tsOk = true →
        (Portal.initialize_app jparse tsOk (Portal.CsvLoad.ok t)).nrows = t.nrows
        ∧ (Portal.initialize_app jparse tsOk (Portal.CsvLoad.ok t)).chat
            = List.replicate t.nrows []) := by
  by_cases h0 : ¬ tsOk = true ∧ "Timestamp" ∈ t.cols
  · have e : Portal.initialize_app jparse tsOk (Portal.CsvLoad.ok t) = ⟨0, [], false, true⟩ := by
      simp only [Portal.initialize_app, if_pos h0]
    rw [e]
    exact ⟨rfl, rfl, rfl, fun hts => absurd hts h0.1⟩
  · have e : Portal.initialize_app jparse tsOk (Portal.CsvLoad.ok t)
        = ⟨t.nrows, List.replicate t.nrows [], false, false⟩ := by
      simp only [Portal.initialize_app, if_neg h0, if_neg h]
    rw [e]
    exact ⟨rfl, by simp, rfl, fun _ => ⟨rfl, rfl⟩⟩

/-- Witness for C6: a three-row CSV without a `Chat` column. -/
theorem c6_missing_chat_column_recovered_witness :
    (Portal.initialize_app (fun _ => none) true
        (Portal.CsvLoad.ok ⟨["Timestamp", "Learner Name"], 3, []⟩)).chat
        = List.replicate (Portal.initialize_app (fun _ => none) true
            (Portal.CsvLoad.ok ⟨["Timestamp", "Learner Name"], 3, []⟩)).nrows []
    ∧ (Portal.initialize_app (fun _ => none) true
        (Portal.CsvLoad.ok ⟨["Timestamp", "Learner Name"], 3, []⟩)).chat.length
        = (Portal.initialize_app (fun _ => none) true
            (Portal.CsvLoad.ok ⟨["Timestamp", "Learner Name"], 3, []⟩)).nrows
    ∧ (Portal.initialize_app (fun _ => none) true
        (Portal.CsvLoad.ok ⟨["Timestamp", "Learner Name"], 3, []⟩)).warned = false
    ∧ (true = true →
        (Portal.initialize_app (fun _ => none) true
            (Portal.CsvLoad.ok ⟨["Timestamp", "Learner Name"], 3, []⟩)).nrows = 3
        ∧ (Portal.initialize_app (fun _ => none) true
            (Portal.CsvLoad.ok ⟨["Timestamp", "Learner Name"], 3, []⟩)).chat
            = List.replicate 3 []) :=
  c6_missing_chat_column_recovered (fun _ => none) true
    ⟨["Timestamp", "Learner Name"], 3, []⟩ (by decide)

/-! ## Claims about `load_forum_data` -/

namespace Forum

/-- Looking a key up after appending a post to a group. -/
theorem lookupGroup_appendToGroup (g : List (String × List Post)) (k k' : String) (p : Post) :
    lookupGroup (appendToGroup g k p) k'
      = if k' = k then lookupGroup g k ++ [p] else lookupGroup g k' := by
  induction g with
  | nil =>
    by_cases h : k' = k
    · simp [appendToGroup, lookupGroup, h]
    · simp [appendToGroup, lookupGroup, h, Ne.symm h]
  | cons e rest ih =>
    obtain ⟨k0, ps⟩ := e
    by_cases h1 : k0 = k
    · subst h1
      by_cases h2 : k' = k0
      · simp [appendToGroup, lookupGroup, h2]
      · simp [appendToGroup, lookupGroup, h2, Ne.symm h2]
    · by_cases h2 : k' = k
      · subst h2
        have h3 : k0 ≠ k' := h1
        simp [appendToGroup, lookupGroup, h1, h3, ih]
      · by_cases h3 : k0 = k' <;> simp [appendToGroup, lookupGroup, h1, h2, h3, ih]

/-- The grouping loop succeeds when every grouped post's timestamp parses,
and each group is exactly the ordered sequence of converted posts whose
key is that group's key. -/
theorem groupPosts_spec (parse : String → Option Nat) (posts : List PostRow) :
    ∀ acc : List (String × List Post),
      (∀ p ∈ posts, truthy p.topic_id = true → (parse p.created_at).isSome) →
      ∃ g, groupPosts parse posts acc = some g
        ∧ ∀ k, lookupGroup g k
            = lookupGroup acc k
              ++ (posts.filter (fun p => postKey p = some k)).map (mkPostD parse) := by
  induction posts with
  | nil =>
    intro acc _
    exact ⟨acc, rfl, fun k => by simp⟩
  | cons p rest ih =>
    intro acc hok
    by_cases ht : truthy p.topic_id = true
    · obtain ⟨s, hs, hsne⟩ : ∃ s, p.topic_id = some s ∧ s ≠ "" := by
        cases hpt : p.topic_id with
        | none => rw [hpt] at ht; simp [truthy] at ht
        | some s =>
          refine ⟨s, rfl, ?_⟩
          rw [hpt] at ht
          simpa [truthy] using ht
      have ht2 : truthy (some s) = true := by simp [truthy, hsne]
      obtain ⟨ts, hts⟩ := Option.isSome_iff_exists.mp (hok p (by simp) ht)
      obtain ⟨g, hg, hlook⟩ := ih (appendToGroup acc s (mkPost p ts))
        (fun q hq hq2 => hok q (by simp [hq]) hq2)
      refine ⟨g, ?_, ?_⟩
      · rw [show groupPosts parse (p :: rest) acc
            = groupPosts parse rest (appendToGroup acc s (mkPost p ts)) by
          simp [groupPosts, hs, ht2, hts]]
        exact hg
      · intro k
        have hkey : postKey p = some s := by simp [postKey, hs, ht2]
        have hmkD : mkPostD parse p = mkPost p ts := by
          simp [mkPostD, pvP, hts]
        by_cases hk : k = s
        · subst hk
          rw [hlook k, lookupGroup_appendToGroup, if_pos rfl]
          simp [List.filter, hkey, hmkD]
        · rw [hlook k, lookupGroup_appendToGroup, if_neg hk]
          have : postKey p ≠ some k := by rw [hkey]; simpa using Ne.symm hk
          simp [List.filter, this]
    · have hkey : postKey p = none := by
        simp [postKey]
        intro hcon
        exact absurd hcon ht
      obtain ⟨g, hg, hlook⟩ := ih acc (fun q hq hq2 => hok q (by simp [hq]) hq2)
      refine ⟨g, ?_, fun k => ?_⟩
      · rw [show groupPosts parse (p :: rest) acc = groupPosts parse rest acc by
          simp [groupPosts, ht]]
        exact hg
      · rw [hlook k]
        have : postKey p ≠ some k := by rw [hkey]; simp
        simp [List.filter, this]

/-- Inserting a fresh key into the dict appends it at the end. -/
theorem dictInsert_eq_append :
    ∀ (d : List (String × TopicRec)) (k : String) (v : TopicRec),
      (∀ e ∈ d, e.1 ≠ k) → dictInsert d k v = d ++ [(k, v)]
  | [], _, _, _ => rfl
  | e :: rest, k, v, h => by
    obtain ⟨k0, v0⟩ := e
    have h1 : k0 ≠ k := h (k0, v0) (by simp)
    simp [dictInsert, h1,
      dictInsert_eq_append rest k v (fun x hx => h x (by simp [hx]))]

/-- The topic loop with every timestamp parsing and pairwise-distinct
topic ids builds exactly the in-order list of topic records. -/
theorem buildTopics_ok (parse : String → Option Nat) (g : List (String × List Post)) :
    ∀ (topics : List TopicRow) (acc : List (String × TopicRec)),
      (∀ t ∈ topics, (parse t.created_at).isSome) →
      (topics.map TopicRow.id).Nodup →
      (∀ e ∈ acc, ∀ t ∈ topics, e.1 ≠ t.id) →
      buildTopics parse g topics acc
        = (acc ++ topics.map (fun t => (t.id, mkRecD parse g t)), false)
  | [], acc, _, _, _ => by simp [buildTopics]
  | t :: rest, acc, hok, hnd, hdisj => by
    obtain ⟨ts, hts⟩ := Option.isSome_iff_exists.mp (hok t (by simp))
    have hmk : mkRec g t ts = mkRecD parse g t := by simp [mkRecD, pvT, hts]
    have hnd2 : t.id ∉ rest.map TopicRow.id ∧ (rest.map TopicRow.id).Nodup := by
      rw [List.map_cons, List.nodup_cons] at hnd
      exact hnd
    have hins : dictInsert acc t.id (mkRec g t ts) = acc ++ [(t.id, mkRec g t ts)] :=
      dictInsert_eq_append acc t.id _ (fun e he => hdisj e he t (by simp))
    have hdisj2 : ∀ e ∈ acc ++ [(t.id, mkRec g t ts)], ∀ u ∈ rest, e.1 ≠ u.id := by
      intro e he u hu
      rcases List.mem_append.mp he with he1 | he1
      · exact hdisj e he1 u (by simp [hu])
      · have he2 : e = (t.id, mkRec g t ts) := by simpa using he1
        subst he2
        intro hcon
        have heq : t.id = u.id := hcon
        exact hnd2.1 (by rw [heq]; exact List.mem_map_of_mem TopicRow.id hu)
    have hrec := buildTopics_ok parse g rest (acc ++ [(t.id, mkRec g t ts)])
      (fun u hu => hok u (by simp [hu])) hnd2.2 hdisj2
    rw [show buildTopics parse g (t :: rest) acc
        = buildTopics parse g rest (dictInsert acc t.id (mkRec g t ts)) by
      simp [buildTopics, hts]]
    rw [hins, hrec, hmk]
    simp

/-- The topic loop hitting a topic whose timestamp does not parse reports
the error and returns the records accumulated before the failure. -/
theorem buildTopics_fail (parse : String → Option Nat) (g : List (String × List Post)) :
    ∀ (pre : List TopicRow) (t : TopicRow) (rest : List TopicRow)
      (acc : List (String × TopicRec)),
      (∀ u ∈ pre, (parse u.created_at).isSome) →
      ((pre.map TopicRow.id).Nodup) →
      (∀ e ∈ acc, ∀ u ∈ pre, e.1 ≠ u.id) →
      parse t.created_at = none →
      buildTopics parse g (pre ++ t :: rest) acc
        = (acc ++ pre.map (fun u => (u.id, mkRecD parse g u)), true)
  | [], t, rest, acc, _, _, _, hfail => by simp [buildTopics, hfail]
  | u :: pre, t, rest, acc, hok, hnd, hdisj, hfail => by
    obtain ⟨ts, hts⟩ := Option.isSome_iff_exists.mp (hok u (by simp))
    have hmk : mkRec g u ts = mkRecD parse g u := by simp [mkRecD, pvT, hts]
    have hnd2 : u.id ∉ pre.map TopicRow.id ∧ (pre.map TopicRow.id).Nodup := by
      rw [List.map_cons, List.nodup_cons] at hnd
      exact hnd
    have hins : dictInsert acc u.id (mkRec g u ts) = acc ++ [(u.id, mkRec g u ts)] :=
      dictInsert_eq_append acc u.id _ (fun e he => hdisj e he u (by simp))
    have hdisj2 : ∀ e ∈ acc ++ [(u.id, mkRec g u ts)], ∀ w ∈ pre, e.1 ≠ w.id := by
      intro e he w hw
      rcases List.mem_append.mp he with he1 | he1
      · exact hdisj e he1 w (by simp [hw])
      · have he2 : e = (u.id, mkRec g u ts) := by simpa using he1
        subst he2
        intro hcon
        have heq : u.id = w.id := hcon
        exact hnd2.1 (by rw [heq]; exact List.mem_map_of_mem TopicRow.id hw)
    have hrec := buildTopics_fail parse g pre t rest (acc ++ [(u.id, mkRec g u ts)])
      (fun w hw => hok w (by simp [hw])) hnd2.2 hdisj2 hfail
    rw [show buildTopics parse g ((u :: pre) ++ t :: rest) acc
        = buildTopics parse g (pre ++ t :: rest) (dictInsert acc u.id (mkRec g u ts)) by
      simp [buildTopics, hts]]
    rw [hins, hrec, hmk]
    simp

/-- Characterization of a fully successful `load_forum_data` run: the
returned mapping lists, in topic fetch order, every topic paired with the
ordered converted posts grouped under its id, and no error is reported. -/
theorem load_forum_data_ok (parse : String → Option Nat)
    (topics : List TopicRow) (posts : List PostRow)
    (hids : (topics.map TopicRow.id).Nodup)
    (htp : ∀ t ∈ topics, (parse t.created_at).isSome)
    (hpp : ∀ p ∈ posts, truthy p.topic_id = true → (parse p.created_at).isSome) :
    ∃ g, groupPosts parse posts [] = some g
      ∧ (∀ k, lookupGroup g k
          = (posts.filter (fun p => postKey p = some k)).map (mkPostD parse))
      ∧ load_forum_data parse (Fetch.ok topics) (Fetch.ok posts)
          = ⟨topics.map (fun t => (t.id, mkRecD parse g t)), false⟩ := by
  obtain ⟨g, hg, hlook⟩ := groupPosts_spec parse posts [] hpp
  have hb := buildTopics_ok parse g topics [] htp hids (by simp)
  refine ⟨g, hg, fun k => by simpa [lookupGroup] using hlook k, ?_⟩
  simp [load_forum_data, hg, hb]

end Forum

/-- C1: when both fetches succeed, the store returns topics newest first
and posts oldest first, topic ids are distinct and non-empty, and every
needed timestamp parses, `load_forum_data` returns a mapping in which
every post row carrying some topic's id appears in that topic's posts
list, each topic's posts are ordered by creation time ascending, and the
topics are ordered by creation time descending. -/
theorem c1_load_forum_data_groups_and_orders (parse : String → Option Nat)
    (topics : List Forum.TopicRow) (posts : List Forum.PostRow)
    (hids : (topics.map Forum.TopicRow.id).Nodup)
    (hne : ∀ t ∈ topics, t.id ≠ "")
    (htp : ∀ t ∈ topics, (parse t.created_at).isSome)
    (hpp : ∀ p ∈ posts, Forum.truthy p.topic_id = true → (parse p.created_at).isSome)
    (hsT : topics.Pairwise (fun a b => Forum.pvT parse b ≤ Forum.pvT parse a))
    (hsP : posts.Pairwise (fun a b => Forum.pvP parse a ≤ Forum.pvP parse b)) :
    (∀ p ∈ posts, ∀ t ∈ topics, p.topic_id = some t.id →
        ∃ rec, (t.id, rec) ∈ (Forum.load_forum_data parse
            (Forum.Fetch.ok topics) (Forum.Fetch.ok posts)).dict
          ∧ Forum.mkPostD parse p ∈ rec.posts)
    ∧ (∀ e ∈ (Forum.load_forum_data parse
          (Forum.Fetch.ok topics) (Forum.Fetch.ok posts)).dict,
        e.2.posts.Pairwise (fun a b : Forum.Post => a.created_at ≤ b.created_at))
    ∧ (Forum.load_forum_data parse
        (Forum.Fetch.ok topics) (Forum.Fetch.ok posts)).dict.Pairwise
          (fun a b => b.2.created_at ≤ a.2.created_at)
    ∧ (Forum.load_forum_data parse
        (Forum.Fetch.ok topics) (Forum.Fetch.ok posts)).errored = false := by
  obtain ⟨g, hg, hlook, hload⟩ := Forum.load_forum_data_ok parse topics posts hids htp hpp
  rw [hload]
  refine ⟨?_, ?_, ?_, rfl⟩
  · intro p hp t ht hpt
    refine ⟨Forum.mkRecD parse g t, List.mem_map_of_mem _ ht, ?_⟩
    show Forum.mkPostD parse p ∈ Forum.lookupGroup g t.id
    rw [hlook]
    refine List.mem_map_of_mem _ ?_
    rw [List.mem_filter]
    refine ⟨hp, ?_⟩
    have ht2 : Forum.truthy p.topic_id = true := by
      rw [hpt]
      simpa [Forum.truthy] using hne t ht
    simp [Forum.postKey, ht2, hpt, Forum.truthy, hne t ht]
  · intro e he
    obtain ⟨t, ht, rfl⟩ := List.mem_map.mp he
    show (Forum.lookupGroup g t.id).Pairwise _
    rw [hlook, List.pairwise_map]
    exact List.Pairwise.sublist (List.filter_sublist posts) hsP
  · rw [List.pairwise_map]
    exact hsT

/-- Witness for C1: two topics fetched newest first and three posts
oldest first, all grouped and ordered as the claim states. -/
theorem c1_load_forum_data_groups_and_orders_witness :
    (∀ p ∈ ([⟨"p1", some "t2", "w", "x", "a"⟩, ⟨"p2", some "t1", "w", "y", "aa"⟩,
        ⟨"p3", some "t1", "w", "z", "aaa"⟩] : List Forum.PostRow),
      ∀ t ∈ ([⟨"t1", "A", "u", "ccccc"⟩, ⟨"t2", "B", "u", "bb"⟩] : List Forum.TopicRow),
        p.topic_id = some t.id →
          ∃ rec, (t.id, rec) ∈ (Forum.load_forum_data
              (fun s => if s = "bad" then none else some s.length)
              (Forum.Fetch.ok [⟨"t1", "A", "u", "ccccc"⟩, ⟨"t2", "B", "u", "bb"⟩])
              (Forum.Fetch.ok [⟨"p1", some "t2", "w", "x", "a"⟩,
                ⟨"p2", some "t1", "w", "y", "aa"⟩,
                ⟨"p3", some "t1", "w", "z", "aaa"⟩])).dict
            ∧ Forum.mkPostD (fun s => if s = "bad" then none else some s.length) p ∈ rec.posts)
    ∧ (∀ e ∈ (Forum.load_forum_data
          (fun s => if s = "bad" then none else some s.length)
          (Forum.Fetch.ok [⟨"t1", "A", "u", "ccccc"⟩, ⟨"t2", "B", "u", "bb"⟩])
          (Forum.Fetch.ok [⟨"p1", some "t2", "w", "x", "a"⟩,
            ⟨"p2", some "t1", "w", "y", "aa"⟩,
            ⟨"p3", some "t1", "w", "z", "aaa"⟩])).dict,
        e.2.posts.Pairwise (fun a b : Forum.Post => a.created_at ≤ b.created_at))
    ∧ (Forum.load_forum_data
        (fun s => if s = "bad" then none else some s.length)
        (Forum.Fetch.ok [⟨"t1", "A", "u", "ccccc"⟩, ⟨"t2", "B", "u", "bb"⟩])
        (Forum.Fetch.ok [⟨"p1", some "t2", "w", "x", "a"⟩,
          ⟨"p2", some "t1", "w", "y", "aa"⟩,
          ⟨"p3", some "t1", "w", "z", "aaa"⟩])).dict.Pairwise
        (fun a b => b.2.created_at ≤ a.2.created_at)
    ∧ (Forum.load_forum_data
        (fun s => if s = "bad" then none else some s.length)
        (Forum.Fetch.ok [⟨"t1", "A", "u", "ccccc"⟩, ⟨"t2", "B", "u", "bb"⟩])
        (Forum.Fetch.ok [⟨"p1", some "t2", "w", "x", "a"⟩,
          ⟨"p2", some "t1", "w", "y", "aa"⟩,
          ⟨"p3", some "t1", "w", "z", "aaa"⟩])).errored = false :=
  c1_load_forum_data_groups_and_orders
    (fun s => if s = "bad" then none else some s.length)
    [⟨"t1", "A", "u", "ccccc"⟩, ⟨"t2", "B", "u", "bb"⟩]
    [⟨"p1", some "t2", "w", "x", "a"⟩, ⟨"p2", some "t1", "w", "y", "aa"⟩,
      ⟨"p3", some "t1", "w", "z", "aaa"⟩]
    (by decide) (by decide) (by decide) (by decide) (by decide) (by decide)

/-- C10: a fetched post row whose `topic_id` is missing, empty, or equal
to no fetched topic's id ends up in no posts list of the returned
mapping, and the run reports no error for it (post ids assumed unique so
membership can be tracked by id). -/
theorem c10_orphan_posts_silently_dropped (parse : String → Option Nat)
    (topics : List Forum.TopicRow) (posts : List Forum.PostRow)
    (hids : (topics.map Forum.TopicRow.id).Nodup)
    (htp : ∀ t ∈ topics, (parse t.created_at).isSome)
    (hpp : ∀ p ∈ posts, Forum.truthy p.topic_id = true → (parse p.created_at).isSome)
    (praw : Forum.PostRow) (hmem : praw ∈ posts)
    (huniq : ∀ q ∈ posts, q.id = praw.id → q = praw)
    (hbad : Forum.postKey praw = none
      ∨ ∀ t ∈ topics, ¬ Forum.postKey praw = some t.id) :
    (∀ e ∈ (Forum.load_forum_data parse
        (Forum.Fetch.ok topics) (Forum.Fetch.ok posts)).dict,
      ∀ q ∈ e.2.posts, q.id ≠ praw.id)
    ∧ (Forum.load_forum_data parse
        (Forum.Fetch.ok topics) (Forum.Fetch.ok posts)).errored = false := by
  obtain ⟨g, hg, hlook, hload⟩ := Forum.load_forum_data_ok parse topics posts hids htp hpp
  rw [hload]
  refine ⟨?_, rfl⟩
  intro e he q hq hid
  obtain ⟨t, ht, rfl⟩ := List.mem_map.mp he
  have hq2 : q ∈ Forum.lookupGroup g t.id := hq
  rw [hlook] at hq2
  obtain ⟨qraw, hqf, rfl⟩ := List.mem_map.mp hq2
  obtain ⟨hqmem, hqkey⟩ := List.mem_filter.mp hqf
  have hqp : qraw = praw := huniq qraw hqmem hid
  subst hqp
  have hkey : Forum.postKey qraw = some t.id := by simpa using hqkey
  rcases hbad with hb | hb
  · rw [hb] at hkey
    exact Option.noConfusion hkey
  · exact hb t ht hkey

/-- Witness for C10: a post with an unknown topic id and a post with a
missing topic id appear in no posts list. -/
theorem c10_orphan_posts_silently_dropped_witness :
    (∀ e ∈ (Forum.load_forum_data
        (fun s => if s = "bad" then none else some s.length)
        (Forum.Fetch.ok [⟨"t1", "A", "u", "ccccc"⟩])
        (Forum.Fetch.ok [⟨"p1", some "zz", "w", "x", "a"⟩,
          ⟨"p2", some "t1", "w", "y", "aa"⟩])).dict,
      ∀ q ∈ e.2.posts, q.id ≠ "p1")
    ∧ (Forum.load_forum_data
        (fun s => if s = "bad" then none else some s.length)
        (Forum.Fetch.ok [⟨"t1", "A", "u", "ccccc"⟩])
        (Forum.Fetch.ok [⟨"p1", some "zz", "w", "x", "a"⟩,
          ⟨"p2", some "t1", "w", "y", "aa"⟩])).errored = false :=
  c10_orphan_posts_silently_dropped
    (fun s => if s = "bad" then none else some s.length)
    [⟨"t1", "A", "u", "ccccc"⟩]
    [⟨"p1", some "zz", "w", "x", "a"⟩, ⟨"p2", some "t1", "w", "y", "aa"⟩]
    (by decide) (by decide) (by decide)
    ⟨"p1", some "zz", "w", "x", "a"⟩ (by decide) (by decide) (by decide)

/-- C2 counterexample: both fetches succeed but the second topic's
timestamp is malformed; the raised conversion error is caught after the
first topic was already inserted, so `load_forum_data` reports an error
yet returns a mapping holding that first topic — not the empty mapping
the claim requires on every failure. -/
theorem c2_counterexample_partial_mapping :
    (Forum.load_forum_data (fun s => if s = "bad" then none else some s.length)
        (Forum.Fetch.ok [⟨"t1", "A", "u", "aa"⟩, ⟨"t2", "B", "u", "bad"⟩])
        (Forum.Fetch.ok [])).errored = true
    ∧ (Forum.load_forum_data (fun s => if s = "bad" then none else some s.length)
        (Forum.Fetch.ok [⟨"t1", "A", "u", "aa"⟩, ⟨"t2", "B", "u", "bad"⟩])
        (Forum.Fetch.ok [])).dict
      = [("t1", ⟨"t1", "A", "u", 2, [], 2⟩)] := by
  exact ⟨by decide, by decide⟩

/-- C2 (amended): a failed topics or posts fetch, and a post-timestamp
conversion failure (which raises before any topic is inserted), all
return the empty mapping with an error; a topic-timestamp conversion
failure reports an error but returns the partial mapping of the topics
processed before the failing one. -/
theorem c2_amended_failure_behaviour (parse : String → Option Nat)
    (ft : Forum.Fetch Forum.TopicRow) (fp : Forum.Fetch Forum.PostRow) :
    ((ft = Forum.Fetch.err ∨ fp = Forum.Fetch.err) →
        Forum.load_forum_data parse ft fp = ⟨[], true⟩)
    ∧ (∀ ts ps, ft = Forum.Fetch.ok ts → fp = Forum.Fetch.ok ps →
        Forum.groupPosts parse ps [] = none →
        Forum.load_forum_data parse ft fp = ⟨[], true⟩)
    ∧ (∀ ts ps g pre t rest, ft = Forum.Fetch.ok ts → fp = Forum.Fetch.ok ps →
        Forum.groupPosts parse ps [] = some g →
        ts = pre ++ t :: rest →
        (∀ u ∈ pre, (parse u.created_at).isSome) →
        (pre.map Forum.TopicRow.id).Nodup →
        parse t.created_at = none →
        Forum.load_forum_data parse ft fp
          = ⟨pre.map (fun u => (u.id, Forum.mkRecD parse g u)), true⟩) := by
  refine ⟨?_, ?_, ?_⟩
  · rintro (rfl | rfl)
    · rfl
    · cases ft <;> rfl
  · rintro ts ps rfl rfl hnone
    simp [Forum.load_forum_data, hnone]
  · rintro ts ps g pre t rest rfl rfl hsome rfl hok hnd hfail
    have hb := Forum.buildTopics_fail parse g pre t rest [] hok hnd (by simp) hfail
    simp [Forum.load_forum_data, hsome, hb]

/-- Witness for C2 (amended): the same failing run as the counterexample,
derived from the amended theorem's partial-mapping case. -/
theorem c2_amended_failure_behaviour_witness :
    Forum.load_forum_data (fun s => if s = "bad" then none else some s.length)
        (Forum.Fetch.ok [⟨"t1", "A", "u", "aa"⟩, ⟨"t2", "B", "u", "bad"⟩])
        (Forum.Fetch.ok [])
      = ⟨([⟨"t1", "A", "u", "aa"⟩] : List Forum.TopicRow).map
          (fun u => (u.id,
            Forum.mkRecD (fun s => if s = "bad" then none else some s.length) [] u)), true⟩ :=
  (c2_amended_failure_behaviour (fun s => if s = "bad" then none else some s.length)
      (Forum.Fetch.ok [⟨"t1", "A", "u", "aa"⟩, ⟨"t2", "B", "u", "bad"⟩])
      (Forum.Fetch.ok [])).2.2
    [⟨"t1", "A", "u", "aa"⟩, ⟨"t2", "B", "u", "bad"⟩] [] []
    [⟨"t1", "A", "u", "aa"⟩] ⟨"t2", "B", "u", "bad"⟩ []
    rfl rfl rfl rfl (by decide) (by decide) (by decide)
